import Mathlib

/-!
Verification of the session & token-refresh proxy layer of the
Celeste-map customer portal (an Express BFF).

The embedded source is:
  * `src/server/storage.ts` — `MemStorage` (an in-memory `Map` from session
    id to `SessionData`) with `createSession`, `getSession`, `updateSession`,
    `deleteSession`, `getSessionInfo`;
  * `src/shared/schema.ts` — the route/middleware layer: `requireAuth`
    (lines 465-502), `proxyRequest` (lines 504-559), the
    `POST /api/auth/login-pincode` handler (566-594) and the
    `POST /api/auth/logout` handler (652-659).

Modelling conventions:
  * Timestamps (`Date.now()`, `expiresAt`) are `Int` milliseconds.  A call
    that reads `Date.now()` several times is given a single `now` argument:
    within one synchronous stretch of JS the clock is treated as constant.
  * `crypto.randomUUID()` is modelled by passing the fresh identifier
    `newId` as an argument.
  * Every upstream HTTP exchange is an oracle argument: the refresh
    exchange `refreshTokens` yields `Option RefreshTokens` (`none` is the
    `null` returned on a non-ok response or a thrown fetch), a forwarded
    call yields an `UpstreamResp` (status + body; the JSON/text content-type
    split of the relay only changes how the same body is serialised, so the
    body is one opaque string).  The `catch` branch of `proxyRequest` that
    answers 500 on a thrown fetch is unreachable in the model because the
    forwarded-call oracle is total.
  * JS truthiness of an optional string (`session.refreshToken`,
    `sessionId`) is `truthyStr`: `undefined` and `""` are falsy.
  * The JS `Map` is an association list with `Map.get`/`Map.set`/
    `Map.delete` semantics; keys in a `Map` are unique, so `storeDelete`
    removing every binding of the key agrees with `Map.delete`.
-/

namespace Portal

/-- `UserMe` from src/shared/schema.ts. -/
structure UserMe where
  id : Int
  email : String
  name : String
  locale : Option String := none
  timezone : Option String := none
deriving Repr, DecidableEq

/-- `CustomerMe` from src/shared/schema.ts. -/
structure CustomerMe where
  id : Int
  name : String
  email : Option String := none
  phone : Option String := none
  address : Option String := none
  city : Option String := none
  postal_code : Option String := none
  country : Option String := none
  company_name : Option String := none
  vat_number : Option String := none
deriving Repr, DecidableEq

/-- `AuthTokens` from src/shared/schema.ts: the upstream login response. -/
structure AuthTokens where
  access_token : String
  refresh_token : Option String := none
  token_type : String
  expires_in : Int
deriving Repr, DecidableEq

/-- The payload shape returned by `refreshTokens` in src/shared/schema.ts
(`{ access_token: string; refresh_token?: string; expires_in: number }`). -/
structure RefreshTokens where
  access_token : String
  refresh_token : Option String := none
  expires_in : Int
deriving Repr, DecidableEq

/-- `SessionData` from src/server/storage.ts. -/
structure SessionData where
  accessToken : String
  refreshToken : Option String := none
  expiresAt : Int
  user : Option UserMe := none
  customer : Option CustomerMe := none
deriving Repr, DecidableEq

/-- `SessionInfo` from src/shared/schema.ts. -/
structure SessionInfo where
  isAuthenticated : Bool
  user : Option UserMe := none
  customer : Option CustomerMe := none
deriving Repr, DecidableEq

/-- The `MemStorage.sessions` map: insertion-ordered association list,
mirroring a JS `Map<string, SessionData>`. -/
abbrev Store := List (String × SessionData)

/-- `Map.get`: first binding of the key, if any. -/
def storeGet : Store → String → Option SessionData
  | [], _ => none
  | (k, v) :: rest, id => if k = id then some v else storeGet rest id

/-- `Map.set`: replace the binding in place if the key is present,
append it otherwise. -/
def storeSet : Store → String → SessionData → Store
  | [], id, v => [(id, v)]
  | (k, w) :: rest, id, v =>
      if k = id then (k, v) :: rest else (k, w) :: storeSet rest id v

/-- `Map.delete`: drop the binding of the key.  Keys of a JS `Map` are
unique, so dropping every binding is the same operation. -/
def storeDelete : Store → String → Store
  | [], _ => []
  | (k, w) :: rest, id =>
      if k = id then storeDelete rest id else (k, w) :: storeDelete rest id

/-- JS truthiness of a `string | undefined` value: `undefined` and the
empty string are falsy. -/
def truthyStr : Option String → Bool
  | none => false
  | some s => !(s == "")

/-- The JS expression `a || b` on `string | undefined` operands
(`newTokens.refresh_token || session.refreshToken`). -/
def orElseJs (a b : Option String) : Option String :=
  match a with
  | none => b
  | some s => if s = "" then b else some s

/-- `Partial<SessionData>` as passed to `MemStorage.updateSession`:
an outer `none` means the key is absent from the patch object. -/
structure SessionPatch where
  accessToken : Option String := none
  refreshToken : Option (Option String) := none
  expiresAt : Option Int := none
  user : Option (Option UserMe) := none
  customer : Option (Option CustomerMe) := none
deriving Repr, DecidableEq

/-- The spread `{ ...session, ...data }` in `MemStorage.updateSession`. -/
def mergeSession (s : SessionData) (p : SessionPatch) : SessionData :=
  { accessToken := p.accessToken.getD s.accessToken
    refreshToken := p.refreshToken.getD s.refreshToken
    expiresAt := p.expiresAt.getD s.expiresAt
    user := p.user.getD s.user
    customer := p.customer.getD s.customer }

/-- `TOKEN_REFRESH_BUFFER_MS = 5 * 60 * 1000` from src/shared/schema.ts. -/
def TOKEN_REFRESH_BUFFER_MS : Int := 5 * 60 * 1000

/-- `MemStorage.createSession` (src/server/storage.ts lines 27-40):
stores the tokens under the fresh id `newId` (the `randomUUID()` result)
with `expiresAt = Date.now() + tokens.expires_in * 1000`, and returns the
id together with the updated store. -/
def createSession (store : Store) (newId : String) (now : Int)
    (tokens : AuthTokens) (user : Option UserMe) (customer : Option CustomerMe) :
    String × Store :=
  let expiresAt := now + tokens.expires_in * 1000
  (newId,
   storeSet store newId
     { accessToken := tokens.access_token
       refreshToken := tokens.refresh_token
       expiresAt := expiresAt
       user := user
       customer := customer })

/-- `MemStorage.updateSession` (src/server/storage.ts lines 46-51):
merge the patch into the existing row; no-op when the row is absent. -/
def updateSession (store : Store) (id : String) (p : SessionPatch) : Store :=
  match storeGet store id with
  | none => store
  | some s => storeSet store id (mergeSession s p)

/-- `MemStorage.deleteSession` (src/server/storage.ts lines 53-55). -/
def deleteSession (store : Store) (id : String) : Store :=
  storeDelete store id

/-- `MemStorage.getSessionInfo` (src/server/storage.ts lines 57-73).
Returns the `SessionInfo` payload together with the store it leaves
behind; the expired-session branch deletes the row.  The function takes
no upstream oracle: it performs no network call. -/
def getSessionInfo (store : Store) (id : String) (now : Int) :
    SessionInfo × Store :=
  match storeGet store id with
  | none => ({ isAuthenticated := false }, store)
  | some s =>
      if s.expiresAt < now then
        ({ isAuthenticated := false }, storeDelete store id)
      else
        ({ isAuthenticated := true, user := s.user, customer := s.customer },
         store)

/-- What `requireAuth` does with the inbound request: answer 401 with a
JSON message (having possibly cleared the session cookie), or store the
session on the request and call `next()`. -/
inductive AuthResult where
  | unauthorized (message : String) (cookieCleared : Bool)
  | proceed (session : Option SessionData) (sessionId : String)
deriving Repr, DecidableEq

/-- Result of one `requireAuth` run: the HTTP-visible outcome, the store
it leaves behind, and how many upstream refresh exchanges it issued. -/
structure AuthOutput where
  result : AuthResult
  store : Store
  refreshCalls : Nat
deriving Repr, DecidableEq

/-- The patch `requireAuth`/`proxyRequest` pass to `updateSession` after a
successful refresh:
`{ accessToken: newTokens.access_token,
   refreshToken: newTokens.refresh_token || session.refreshToken,
   expiresAt: Date.now() + newTokens.expires_in * 1000 }`. -/
def refreshPatch (session : SessionData) (newTokens : RefreshTokens)
    (now : Int) : SessionPatch :=
  { accessToken := some newTokens.access_token
    refreshToken := some (orElseJs newTokens.refresh_token session.refreshToken)
    expiresAt := some (now + newTokens.expires_in * 1000) }

/-- `requireAuth` (src/shared/schema.ts lines 465-502).  `cookie` is
`req.cookies[SESSION_COOKIE]`; `refreshResp` is the oracle for the one
possible `refreshTokens` upstream exchange (`none` models the `null`
returned on failure). -/
def requireAuth (store : Store) (cookie : Option String) (now : Int)
    (refreshResp : Option RefreshTokens) : AuthOutput :=
  match cookie with
  | none => ⟨.unauthorized "Unauthorized" false, store, 0⟩
  | some sessionId =>
      if sessionId = "" then ⟨.unauthorized "Unauthorized" false, store, 0⟩
      else
        match storeGet store sessionId with
        | none => ⟨.unauthorized "Session expired" true, store, 0⟩
        | some session =>
            if session.expiresAt < now + TOKEN_REFRESH_BUFFER_MS ∧
                truthyStr session.refreshToken = true then
              match refreshResp with
              | some newTokens =>
                  let store1 :=
                    updateSession store sessionId (refreshPatch session newTokens now)
                  ⟨.proceed (storeGet store1 sessionId) sessionId, store1, 1⟩
              | none => ⟨.unauthorized "Session expired" true, store, 1⟩
            else if session.expiresAt < now then
              ⟨.unauthorized "Session expired" true, store, 0⟩
            else
              ⟨.proceed (storeGet store sessionId) sessionId, store, 0⟩

/-- An upstream response to a forwarded call: status plus body (the
JSON/text content-type split only changes how the same body is
serialised back to the client). -/
structure UpstreamResp where
  status : Nat
  body : String
deriving Repr, DecidableEq

/-- What `proxyRequest` answers to the client: relay the upstream status
and body verbatim, or 401 `"Session expired"` with the cookie cleared. -/
inductive ProxyResult where
  | relay (status : Nat) (body : String)
  | sessionExpired
deriving Repr, DecidableEq

/-- Result of one `proxyRequest` run: the client-visible outcome, the
store left behind, and how many forwarded attempts / refresh exchanges
reached the upstream. -/
structure ProxyOutput where
  result : ProxyResult
  store : Store
  forwardCalls : Nat
  refreshCalls : Nat
deriving Repr, DecidableEq

/-- `proxyRequest` (src/shared/schema.ts lines 504-559).  `session` and
`sessionId` are the values `requireAuth` put on the request; `resp1` is
the upstream's answer to the first forwarded attempt, `refreshResp` the
oracle for the one possible refresh exchange, and `resp2` the upstream's
answer to the retried attempt (consulted only if the retry is issued). -/
def proxyRequest (store : Store) (session : Option SessionData)
    (sessionId : String) (now : Int) (resp1 : UpstreamResp)
    (refreshResp : Option RefreshTokens) (resp2 : UpstreamResp) : ProxyOutput :=
  match session with
  | some s =>
      if resp1.status = 401 ∧ truthyStr s.refreshToken = true then
        match refreshResp with
        | some newTokens =>
            let store1 := updateSession store sessionId (refreshPatch s newTokens now)
            if resp2.status = 401 then ⟨.sessionExpired, store1, 2, 1⟩
            else ⟨.relay resp2.status resp2.body, store1, 2, 1⟩
        | none => ⟨.sessionExpired, store, 1, 1⟩
      else
        if resp1.status = 401 then ⟨.sessionExpired, store, 1, 0⟩
        else ⟨.relay resp1.status resp1.body, store, 1, 0⟩
  | none =>
      if resp1.status = 401 then ⟨.sessionExpired, store, 1, 0⟩
      else ⟨.relay resp1.status resp1.body, store, 1, 0⟩

/-- `LoginPincodeRequest` from src/shared/schema.ts (already validated by
the zod schema before reaching the handler's upstream exchange). -/
structure LoginPincodeRequest where
  connector_uuid : String
  pincode : String
deriving Repr, DecidableEq

/-- The upstream's answer to `POST /v2/authenticate/pincode`: success with
a token payload, or a non-ok status whose error body is relayed. -/
inductive UpstreamLogin where
  | ok (tokens : AuthTokens)
  | err (status : Nat) (body : String)
deriving Repr, DecidableEq

/-- What the login handler answers: `{success: true}` with the session
cookie set to the new id, or the upstream failure relayed verbatim. -/
inductive LoginResult where
  | success (sessionId : String)
  | failure (status : Nat) (body : String)
deriving Repr, DecidableEq

/-- The `POST /api/auth/login-pincode` handler (src/shared/schema.ts lines
566-594), after zod validation: forward the payload upstream; on a non-ok
status relay the error; on success `storage.createSession(tokens)` (user
and customer undefined) and set the cookie to the fresh id `newId`. -/
def loginPincode (store : Store) (_payload : LoginPincodeRequest)
    (newId : String) (now : Int) (upstream : UpstreamLogin) :
    LoginResult × Store :=
  match upstream with
  | .err status body => (.failure status body, store)
  | .ok tokens =>
      let r := createSession store newId now tokens none none
      (.success r.1, r.2)

/-- Result of the logout handler: the JSON `{success: true}` flag and
whether the cookie was cleared (both unconditional in the code). -/
structure LogoutOutput where
  success : Bool
  cookieCleared : Bool
  store : Store
deriving Repr, DecidableEq

/-- The `POST /api/auth/logout` handler (src/shared/schema.ts lines
652-659): delete the session when the cookie holds a truthy id, always
clear the cookie and answer `{success: true}`. -/
def logout (store : Store) (cookie : Option String) : LogoutOutput :=
  let store1 :=
    match cookie with
    | some sessionId =>
        if sessionId = "" then store else deleteSession store sessionId
    | none => store
  ⟨true, true, store1⟩

/-!
Interleaving model of concurrent `requireAuth` runs for one session.

`requireAuth` has exactly one suspension point, the
`await refreshTokens(session.refreshToken)` on line 480: everything before
it (cookie check, `storage.getSession`, the expiry-window test, issuing
the refresh exchange) and everything after it (`storage.updateSession` or
the failure answer) runs synchronously on the event loop.  A flow is
therefore either at `start` (about to run the synchronous prefix), at
`awaitingRefresh` (its refresh exchange has reached the upstream and it
holds the `session` value it read), or `done`.  `upstreamRefreshCalls`
counts the refresh exchanges that reached the upstream.
-/

/-- Phase of one in-flight `requireAuth` run, cut at its single `await`. -/
inductive FlowPhase where
  | start
  | awaitingRefresh (session : SessionData)
  | done (result : AuthResult)
deriving Repr, DecidableEq

/-- Shared state of two concurrent `requireAuth` runs for the same
session id: the shared store, each flow's phase, and the number of
refresh exchanges that have reached the upstream. -/
structure ConcState where
  store : Store
  flowA : FlowPhase
  flowB : FlowPhase
  upstreamRefreshCalls : Nat
deriving Repr, DecidableEq

/-- Advance one flow by one scheduler turn.  The `start` turn is the
synchronous prefix of `requireAuth` (lines 465-480): it reads the session
and, in the refresh branch, issues the upstream refresh exchange and
suspends.  The `awaitingRefresh` turn is the synchronous suffix (lines
481-501): the oracle's answer `refreshResp` arrives and the flow updates
the store or fails. -/
def flowStep (sid : String) (now : Int) (refreshResp : Option RefreshTokens)
    (store : Store) (ph : FlowPhase) (calls : Nat) :
    Store × FlowPhase × Nat :=
  match ph with
  | .start =>
      if sid = "" then (store, .done (.unauthorized "Unauthorized" false), calls)
      else
        match storeGet store sid with
        | none => (store, .done (.unauthorized "Session expired" true), calls)
        | some session =>
            if session.expiresAt < now + TOKEN_REFRESH_BUFFER_MS ∧
                truthyStr session.refreshToken = true then
              (store, .awaitingRefresh session, calls + 1)
            else if session.expiresAt < now then
              (store, .done (.unauthorized "Session expired" true), calls)
            else
              (store, .done (.proceed (storeGet store sid) sid), calls)
  | .awaitingRefresh session =>
      match refreshResp with
      | some newTokens =>
          let store1 := updateSession store sid (refreshPatch session newTokens now)
          (store1, .done (.proceed (storeGet store1 sid) sid), calls)
      | none => (store, .done (.unauthorized "Session expired" true), calls)
  | .done r => (store, .done r, calls)

/-- Give the scheduler turn to flow A (`true`) or flow B (`false`). -/
def schedStep (sid : String) (now : Int) (refreshResp : Option RefreshTokens)
    (cfg : ConcState) (who : Bool) : ConcState :=
  if who then
    let r := flowStep sid now refreshResp cfg.store cfg.flowA cfg.upstreamRefreshCalls
    ⟨r.1, r.2.1, cfg.flowB, r.2.2⟩
  else
    let r := flowStep sid now refreshResp cfg.store cfg.flowB cfg.upstreamRefreshCalls
    ⟨r.1, cfg.flowA, r.2.1, r.2.2⟩

/-- Run a schedule (a list of scheduler turns) from a configuration. -/
def runSched (sid : String) (now : Int) (refreshResp : Option RefreshTokens)
    (cfg : ConcState) (sched : List Bool) : ConcState :=
  sched.foldl (schedStep sid now refreshResp) cfg

/-- Whether a flow has completed. -/
def FlowPhase.isDone : FlowPhase → Bool
  | .done _ => true
  | _ => false

/-- The session row written by a successful refresh (`refreshPatch`
merged into the old row): new access token, `refresh_token || old`,
`now + expires_in * 1000`, identity snapshot untouched. -/
def refreshedRow (s : SessionData) (nt : RefreshTokens) (now : Int) :
    SessionData :=
  { accessToken := nt.access_token
    refreshToken := orElseJs nt.refresh_token s.refreshToken
    expiresAt := now + nt.expires_in * 1000
    user := s.user
    customer := s.customer }

/-! Concrete states used to exercise the definitions. -/

/-- A session near expiry that still holds a refresh credential. -/
def demoSession : SessionData :=
  { accessToken := "A1", refreshToken := some "R1", expiresAt := 100000 }

/-- A one-row store holding `demoSession` under id `"s"`. -/
def demoStore : Store := [("s", demoSession)]

/-- An upstream refresh response that omits `refresh_token`. -/
def demoNT : RefreshTokens := { access_token := "A2", expires_in := 3600 }

/-- An expired session with no refresh credential. -/
def demoNoRefreshSession : SessionData :=
  { accessToken := "A1", expiresAt := 1000 }

/-- A one-row store holding `demoNoRefreshSession` under id `"s"`. -/
def demoNoRefreshStore : Store := [("s", demoNoRefreshSession)]

/-- An upstream 401 answer to a forwarded call. -/
def demo401 : UpstreamResp := ⟨401, "Unauthorized"⟩

/-- The stubbed upstream login response of the round-trip scenario:
`{access_token:"A1", refresh_token:"R1", expires_in:3600}`. -/
def demoLoginTokens : AuthTokens :=
  { access_token := "A1", refresh_token := some "R1"
    token_type := "Bearer", expires_in := 3600 }

/-- Running a single flow to completion without interference agrees with
the sequential `requireAuth`: the interleaving model is a faithful cut of
the middleware. -/
theorem flowStep_two_turns_eq_requireAuth (store : Store) (sid : String)
    (now : Int) (rr : Option RefreshTokens) :
    (let r1 := flowStep sid now rr store .start 0
     let r2 := flowStep sid now rr r1.1 r1.2.1 r1.2.2
     r2.2.1 = .done (requireAuth store (some sid) now rr).result ∧
       r2.1 = (requireAuth store (some sid) now rr).store ∧
       r2.2.2 = (requireAuth store (some sid) now rr).refreshCalls) := by
  by_cases hsid : sid = ""
  · simp [flowStep, requireAuth, hsid]
  · cases hs : storeGet store sid with
    | none => simp [flowStep, requireAuth, hsid, hs]
    | some session =>
        by_cases hg : session.expiresAt < now + TOKEN_REFRESH_BUFFER_MS ∧
            truthyStr session.refreshToken = true
        · cases rr with
          | some nt => simp [flowStep, requireAuth, hsid, hs, hg]
          | none => simp [flowStep, requireAuth, hsid, hs, hg]
        · by_cases he : session.expiresAt < now
          · simp [flowStep, requireAuth, hsid, hs, hg, he]
          · simp [flowStep, requireAuth, hsid, hs, hg, he]

/-! Basic lemmas about the store operations. -/

/-- After `Map.set`, looking up the written key yields the written value. -/
theorem storeGet_storeSet_self (store : Store) (id : String) (v : SessionData) :
    storeGet (storeSet store id v) id = some v := by
  induction store with
  | nil => simp [storeGet, storeSet]
  | cons p rest ih =>
      obtain ⟨k, w⟩ := p
      by_cases hk : k = id
      · simp [storeGet, storeSet, hk]
      · simp [storeGet, storeSet, hk, ih]

/-- After `Map.delete`, the deleted key is absent. -/
theorem storeGet_storeDelete_self (store : Store) (id : String) :
    storeGet (storeDelete store id) id = none := by
  induction store with
  | nil => simp [storeGet, storeDelete]
  | cons p rest ih =>
      obtain ⟨k, w⟩ := p
      by_cases hk : k = id
      · simp [storeDelete, hk, ih]
      · simp [storeGet, storeDelete, hk, ih]

/-- `updateSession` on a present row is a `Map.set` of the merged row. -/
theorem updateSession_of_get (store : Store) (id : String) (s : SessionData)
    (p : SessionPatch) (hs : storeGet store id = some s) :
    updateSession store id p = storeSet store id (mergeSession s p) := by
  simp [updateSession, hs]

theorem mergeSession_refreshPatch (s : SessionData) (nt : RefreshTokens)
    (now : Int) :
    mergeSession s (refreshPatch s nt now) = refreshedRow s nt now := by
  simp [mergeSession, refreshPatch, refreshedRow]

/-- Characterisation of `requireAuth` on the proactive-refresh success
path: under the refresh-window guard, with the upstream returning new
tokens, the middleware stores the refreshed row, proceeds with it, and
issues exactly one refresh exchange. -/
theorem requireAuth_refresh_success (store : Store) (sid : String)
    (s : SessionData) (now : Int) (nt : RefreshTokens) (hsid : ¬ sid = "")
    (hs : storeGet store sid = some s)
    (hg : s.expiresAt < now + TOKEN_REFRESH_BUFFER_MS)
    (ht : truthyStr s.refreshToken = true) :
    requireAuth store (some sid) now (some nt) =
      ⟨.proceed (some (refreshedRow s nt now)) sid,
       storeSet store sid (refreshedRow s nt now), 1⟩ := by
  simp [requireAuth, hsid, hs, hg, ht, updateSession_of_get store sid s _ hs,
    mergeSession_refreshPatch, storeGet_storeSet_self]

/-- Characterisation of `requireAuth` on the proactive-refresh failure
path: under the refresh-window guard, with the upstream refusing the
refresh, the middleware answers 401 `"Session expired"`, clears the
cookie, leaves the store untouched, and issued exactly one refresh
exchange. -/
theorem requireAuth_refresh_failure (store : Store) (sid : String)
    (s : SessionData) (now : Int) (hsid : ¬ sid = "")
    (hs : storeGet store sid = some s)
    (hg : s.expiresAt < now + TOKEN_REFRESH_BUFFER_MS)
    (ht : truthyStr s.refreshToken = true) :
    requireAuth store (some sid) now none =
      ⟨.unauthorized "Session expired" true, store, 1⟩ := by
  simp [requireAuth, hsid, hs, hg, ht]

/-- Characterisation of `proxyRequest` on the reactive-refresh path with a
successful refresh: the refreshed row is stored and the call is retried
once with the new access token. -/
theorem proxyRequest_refresh_success (store : Store) (s : SessionData)
    (sid : String) (now : Int) (resp1 : UpstreamResp) (nt : RefreshTokens)
    (resp2 : UpstreamResp) (h1 : resp1.status = 401)
    (ht : truthyStr s.refreshToken = true)
    (hrow : storeGet store sid = some s) :
    proxyRequest store (some s) sid now resp1 (some nt) resp2 =
      ⟨if resp2.status = 401 then .sessionExpired
        else .relay resp2.status resp2.body,
       storeSet store sid (refreshedRow s nt now), 2, 1⟩ := by
  by_cases h2 : resp2.status = 401 <;>
    simp [proxyRequest, h1, ht, h2, updateSession_of_get store sid s _ hrow,
      mergeSession_refreshPatch]

/-! The claims. -/

/-- C1: the claim demands at most one in-flight upstream refresh per
session id — N concurrent resolves that all observe near-expiry must
produce exactly one upstream refresh exchange.  The code has no
per-session lock or single-flight coalescing: with session `"s"` near
expiry and holding refresh token `"R1"`, two concurrent `requireAuth`
runs that both read the session before either refresh completes each
issue their own refresh exchange, so two refresh calls reach the
upstream while both flows complete. -/
theorem C1_concurrent_resolve_two_refreshes :
    (runSched "s" 0 (some demoNT)
        ⟨demoStore, .start, .start, 0⟩ [true, false, true, false]).upstreamRefreshCalls = 2 ∧
    ((runSched "s" 0 (some demoNT)
        ⟨demoStore, .start, .start, 0⟩ [true, false, true, false]).flowA).isDone = true ∧
    ((runSched "s" 0 (some demoNT)
        ⟨demoStore, .start, .start, 0⟩ [true, false, true, false]).flowB).isDone = true := by
  decide

/-- C2: a forwarded call that receives 401, then a successful refresh,
then another 401 on the retried call, results in exactly two upstream
forwarded attempts and exactly one refresh attempt, ending in
`NotAuthenticated`; and no run of `proxyRequest`, whatever the upstream
answers, ever makes a third forwarded attempt or a second refresh. -/
theorem C2_forwarded_call_retry_bound (store : Store) (s : SessionData)
    (sid : String) (now : Int) (resp1 resp2 : UpstreamResp)
    (nt : RefreshTokens) (h1 : resp1.status = 401) (h2 : resp2.status = 401)
    (ht : truthyStr s.refreshToken = true) :
    ((proxyRequest store (some s) sid now resp1 (some nt) resp2).forwardCalls = 2 ∧
     (proxyRequest store (some s) sid now resp1 (some nt) resp2).refreshCalls = 1 ∧
     (proxyRequest store (some s) sid now resp1 (some nt) resp2).result = .sessionExpired) ∧
    ∀ (store' : Store) (so : Option SessionData) (sid' : String) (now' : Int)
      (r1 : UpstreamResp) (rr : Option RefreshTokens) (r2 : UpstreamResp),
      (proxyRequest store' so sid' now' r1 rr r2).forwardCalls ≤ 2 ∧
      (proxyRequest store' so sid' now' r1 rr r2).refreshCalls ≤ 1 := by
  constructor
  · simp [proxyRequest, h1, h2, ht]
  · intro store' so sid' now' r1 rr r2
    cases so <;> cases rr <;> dsimp only [proxyRequest] <;> (repeat' split) <;> simp

/-- Witness for C2 at a concrete input: a 401, a successful refresh and a
401 on the retry yield two forwarded attempts, one refresh, and the
session-expired answer. -/
theorem C2_forwarded_call_retry_bound_witness :
    (proxyRequest demoStore (some demoSession) "s" 0 demo401 (some demoNT) demo401).forwardCalls = 2 ∧
    (proxyRequest demoStore (some demoSession) "s" 0 demo401 (some demoNT) demo401).refreshCalls = 1 ∧
    (proxyRequest demoStore (some demoSession) "s" 0 demo401 (some demoNT) demo401).result = .sessionExpired :=
  (C2_forwarded_call_retry_bound demoStore demoSession "s" 0 demo401 demo401
    demoNT (by decide) (by decide) (by decide)).1

/-- C3 counterexample: the claim says a failed refresh deletes the
session row.  Concretely: `proxyRequest` on session `"s"` gets a 401,
the refresh exchange fails, the client is told `NotAuthenticated` — and
the row is still in the store, unchanged. -/
theorem C3_counterexample_row_survives :
    (proxyRequest demoStore (some demoSession) "s" 0 demo401 none demo401).result = .sessionExpired ∧
    storeGet (proxyRequest demoStore (some demoSession) "s" 0 demo401 none demo401).store "s" =
      some demoSession := by
  decide

/-- C3 amended: whenever a refresh attempt fails (proactively in
`requireAuth` or reactively in `proxyRequest`), or the retried forwarded
call after a successful refresh also returns 401, `NotAuthenticated` is
reported and the cookie is cleared, but the session row is NOT deleted
from the store: on the failed-refresh paths the store is left untouched,
and on the retry-401 path the row survives holding the refreshed
credentials. -/
theorem C3_amended_failure_keeps_row :
    (∀ (store : Store) (sid : String) (s : SessionData) (now : Int),
        ¬ sid = "" → storeGet store sid = some s →
        s.expiresAt < now + TOKEN_REFRESH_BUFFER_MS →
        truthyStr s.refreshToken = true →
        (requireAuth store (some sid) now none).result =
          .unauthorized "Session expired" true ∧
        (requireAuth store (some sid) now none).store = store) ∧
    (∀ (store : Store) (s : SessionData) (sid : String) (now : Int)
        (r1 r2 : UpstreamResp), r1.status = 401 →
        truthyStr s.refreshToken = true →
        (proxyRequest store (some s) sid now r1 none r2).result = .sessionExpired ∧
        (proxyRequest store (some s) sid now r1 none r2).store = store) ∧
    (∀ (store : Store) (s : SessionData) (sid : String) (now : Int)
        (r1 : UpstreamResp) (nt : RefreshTokens) (r2 : UpstreamResp),
        r1.status = 401 → r2.status = 401 →
        truthyStr s.refreshToken = true → storeGet store sid = some s →
        (proxyRequest store (some s) sid now r1 (some nt) r2).result = .sessionExpired ∧
        storeGet (proxyRequest store (some s) sid now r1 (some nt) r2).store sid =
          some (refreshedRow s nt now)) := by
  refine ⟨?_, ?_, ?_⟩
  · intro store sid s now hsid hs hg ht
    rw [requireAuth_refresh_failure store sid s now hsid hs hg ht]
    exact ⟨rfl, rfl⟩
  · intro store s sid now r1 r2 h1 ht
    simp [proxyRequest, h1, ht]
  · intro store s sid now r1 nt r2 h1 h2 ht hs
    rw [proxyRequest_refresh_success store s sid now r1 nt r2 h1 ht hs]
    exact ⟨by simp [h2], storeGet_storeSet_self store sid _⟩

/-- Witness for the amended C3 at concrete inputs: a failed proactive
refresh and a failed reactive refresh both leave the one-row store
untouched, and a retry-401 leaves the row present. -/
theorem C3_amended_failure_keeps_row_witness :
    ((requireAuth demoStore (some "s") 0 none).result =
        .unauthorized "Session expired" true ∧
      (requireAuth demoStore (some "s") 0 none).store = demoStore) ∧
    ((proxyRequest demoStore (some demoSession) "s" 0 demo401 none demo401).result = .sessionExpired ∧
      (proxyRequest demoStore (some demoSession) "s" 0 demo401 none demo401).store = demoStore) ∧
    ((proxyRequest demoStore (some demoSession) "s" 0 demo401 (some demoNT) demo401).result = .sessionExpired ∧
      storeGet (proxyRequest demoStore (some demoSession) "s" 0 demo401 (some demoNT) demo401).store "s" =
        some (refreshedRow demoSession demoNT 0)) :=
  ⟨C3_amended_failure_keeps_row.1 demoStore "s" demoSession 0 (by decide)
      (by decide) (by decide) (by decide),
   C3_amended_failure_keeps_row.2.1 demoStore demoSession "s" 0 demo401 demo401
      (by decide) (by decide),
   C3_amended_failure_keeps_row.2.2 demoStore demoSession "s" 0 demo401 demoNT
      demo401 (by decide) (by decide) (by decide) (by decide)⟩

/-- C4 counterexample: the claim says that for an expired session with no
refresh credential, `resolve` returns `NotAuthenticated` and removes the
row.  Concretely: `requireAuth` on the expired refresh-less session `"s"`
answers 401 `"Session expired"` — and the row is still in the store. -/
theorem C4_counterexample_row_survives :
    (requireAuth demoNoRefreshStore (some "s") 500000 none).result =
      .unauthorized "Session expired" true ∧
    storeGet (requireAuth demoNoRefreshStore (some "s") 500000 none).store "s" =
      some demoNoRefreshSession := by
  decide

/-- C4 amended: for every expired session with no refresh credential,
`requireAuth` returns `NotAuthenticated` and clears the cookie but leaves
the row in the store; the row is removed lazily by `getSessionInfo` when
the session-info endpoint next observes the expired session. -/
theorem C4_amended_lazy_expiry (store : Store) (sid : String)
    (s : SessionData) (now : Int) (hsid : ¬ sid = "")
    (hs : storeGet store sid = some s)
    (hnr : truthyStr s.refreshToken = false) (hexp : s.expiresAt < now) :
    (∀ rr, (requireAuth store (some sid) now rr).result =
        .unauthorized "Session expired" true ∧
      (requireAuth store (some sid) now rr).store = store) ∧
    (getSessionInfo store sid now).1.isAuthenticated = false ∧
    storeGet (getSessionInfo store sid now).2 sid = none := by
  refine ⟨?_, ?_, ?_⟩
  · intro rr
    simp [requireAuth, hsid, hs, hnr, hexp]
  · simp [getSessionInfo, hs, hexp]
  · simp [getSessionInfo, hs, hexp, storeGet_storeDelete_self]

/-- Witness for the amended C4 at a concrete input: the expired
refresh-less session answers 401 with the row left behind, and the next
`getSessionInfo` removes it. -/
theorem C4_amended_lazy_expiry_witness :
    ((requireAuth demoNoRefreshStore (some "s") 500000 none).result =
        .unauthorized "Session expired" true ∧
      (requireAuth demoNoRefreshStore (some "s") 500000 none).store = demoNoRefreshStore) ∧
    (getSessionInfo demoNoRefreshStore "s" 500000).1.isAuthenticated = false ∧
    storeGet (getSessionInfo demoNoRefreshStore "s" 500000).2 "s" = none := by
  have h := C4_amended_lazy_expiry demoNoRefreshStore "s" demoNoRefreshSession
    500000 (by decide) (by decide) (by decide) (by decide)
  exact ⟨h.1 none, h.2.1, h.2.2⟩

/-- C5 counterexample: the claim says `session_info` never mutates the
store.  Concretely: querying `getSessionInfo` for the expired session
`"s"` leaves a different store behind (the row has been deleted). -/
theorem C5_counterexample_mutates_store :
    (getSessionInfo demoStore "s" 200000).2 ≠ demoStore ∧
    storeGet (getSessionInfo demoStore "s" 200000).2 "s" = none := by
  decide

/-- C5 amended: `getSessionInfo` performs no network call (it takes no
upstream oracle) and mutates the store in exactly one case: when the
queried session exists and its `expiresAt` has passed, it deletes that
row; for an absent or unexpired session the store is returned
unchanged. -/
theorem C5_amended_mutation_characterised (store : Store) (sid : String)
    (now : Int) :
    (getSessionInfo store sid now).2 =
      (match storeGet store sid with
       | none => store
       | some s => if s.expiresAt < now then storeDelete store sid else store) := by
  unfold getSessionInfo
  cases storeGet store sid with
  | none => rfl
  | some s => by_cases h : s.expiresAt < now <;> simp [h]

/-- C6: the stored `expiresAt` is always `now + expires_in * 1000` where
`expires_in` is the upstream-reported lifetime — at session creation
(`createSession`), at a proactive refresh (`requireAuth`), and at a
reactive refresh (`proxyRequest`); the credentials stored alongside it
are exactly the upstream-issued ones. -/
theorem C6_expiry_from_upstream_lifetime :
    (∀ (store : Store) (newId : String) (now : Int) (tokens : AuthTokens)
        (u : Option UserMe) (c : Option CustomerMe),
        storeGet (createSession store newId now tokens u c).2 newId =
          some { accessToken := tokens.access_token
                 refreshToken := tokens.refresh_token
                 expiresAt := now + tokens.expires_in * 1000
                 user := u, customer := c }) ∧
    (∀ (store : Store) (sid : String) (s : SessionData) (now : Int)
        (nt : RefreshTokens), ¬ sid = "" → storeGet store sid = some s →
        s.expiresAt < now + TOKEN_REFRESH_BUFFER_MS →
        truthyStr s.refreshToken = true →
        storeGet (requireAuth store (some sid) now (some nt)).store sid =
          some { accessToken := nt.access_token
                 refreshToken := orElseJs nt.refresh_token s.refreshToken
                 expiresAt := now + nt.expires_in * 1000
                 user := s.user, customer := s.customer }) ∧
    (∀ (store : Store) (s : SessionData) (sid : String) (now : Int)
        (r1 : UpstreamResp) (nt : RefreshTokens) (r2 : UpstreamResp),
        r1.status = 401 → truthyStr s.refreshToken = true →
        storeGet store sid = some s →
        storeGet (proxyRequest store (some s) sid now r1 (some nt) r2).store sid =
          some { accessToken := nt.access_token
                 refreshToken := orElseJs nt.refresh_token s.refreshToken
                 expiresAt := now + nt.expires_in * 1000
                 user := s.user, customer := s.customer }) := by
  refine ⟨?_, ?_, ?_⟩
  · intro store newId now tokens u c
    exact storeGet_storeSet_self store newId _
  · intro store sid s now nt hsid hs hg ht
    rw [requireAuth_refresh_success store sid s now nt hsid hs hg ht]
    exact storeGet_storeSet_self store sid _
  · intro store s sid now r1 nt r2 h1 ht hs
    rw [proxyRequest_refresh_success store s sid now r1 nt r2 h1 ht hs]
    exact storeGet_storeSet_self store sid _

/-- Witness for C6 at concrete inputs: creating a session at time 1000
with lifetime 3600 s stores expiry 3601000; refreshing the demo session
at time 0 with lifetime 3600 s stores expiry 3600000, proactively and
reactively. -/
theorem C6_expiry_from_upstream_lifetime_witness :
    storeGet (createSession [] "n" 1000
        { access_token := "A1", refresh_token := some "R1"
          token_type := "Bearer", expires_in := 3600 } none none).2 "n" =
      some { accessToken := "A1", refreshToken := some "R1", expiresAt := 3601000 } ∧
    storeGet (requireAuth demoStore (some "s") 0 (some demoNT)).store "s" =
      some { accessToken := "A2", refreshToken := some "R1", expiresAt := 3600000 } ∧
    storeGet (proxyRequest demoStore (some demoSession) "s" 0 demo401
        (some demoNT) demo401).store "s" =
      some { accessToken := "A2", refreshToken := some "R1", expiresAt := 3600000 } := by
  have h1 := C6_expiry_from_upstream_lifetime.1 [] "n" 1000
    { access_token := "A1", refresh_token := some "R1"
      token_type := "Bearer", expires_in := 3600 } none none
  have h2 := C6_expiry_from_upstream_lifetime.2.1 demoStore "s" demoSession 0
    demoNT (by decide) (by decide) (by decide) (by decide)
  have h3 := C6_expiry_from_upstream_lifetime.2.2 demoStore demoSession "s" 0
    demo401 demoNT demo401 (by decide) (by decide) (by decide)
  refine ⟨?_, ?_, ?_⟩
  · rw [h1]; decide
  · rw [h2]; decide
  · rw [h3]; decide

/-- C7: after a successful login in which the upstream returns
`{access_token:"A1", refresh_token:"R1", expires_in:3600}`, the login
handler answers success with a session id, and an immediate resolve of
that id proceeds with a session whose access credential is exactly
`"A1"` (the stored credentials equal the issued ones). -/
theorem C7_login_resolve_roundtrip (store : Store)
    (payload : LoginPincodeRequest) (newId : String) (now : Int)
    (hid : ¬ newId = "") :
    (loginPincode store payload newId now (.ok demoLoginTokens)).1 =
      .success newId ∧
    (requireAuth (loginPincode store payload newId now (.ok demoLoginTokens)).2
        (some newId) now none).result =
      .proceed
        (some { accessToken := "A1", refreshToken := some "R1"
                expiresAt := now + 3600 * 1000 }) newId := by
  constructor
  · rfl
  · have hrow := storeGet_storeSet_self store newId
      { accessToken := "A1", refreshToken := some "R1"
        expiresAt := now + 3600000 }
    have hg : ¬ ((now + 3600000 : Int) < now + TOKEN_REFRESH_BUFFER_MS) := by
      simp only [TOKEN_REFRESH_BUFFER_MS]
      omega
    have he : ¬ ((now + 3600000 : Int) < now) := by omega
    simp [loginPincode, createSession, demoLoginTokens, requireAuth, hid,
      hrow, hg, he]

/-- Witness for C7 at a concrete input: logging in on the empty store at
time 0 yields session id `"n"`, immediately resolvable to access token
`"A1"`. -/
theorem C7_login_resolve_roundtrip_witness :
    (loginPincode [] ⟨"u1", "1234"⟩ "n" 0 (.ok demoLoginTokens)).1 =
      .success "n" ∧
    (requireAuth (loginPincode [] ⟨"u1", "1234"⟩ "n" 0 (.ok demoLoginTokens)).2
        (some "n") 0 none).result =
      .proceed
        (some { accessToken := "A1", refreshToken := some "R1"
                expiresAt := 3600000 }) "n" := by
  have h := C7_login_resolve_roundtrip [] ⟨"u1", "1234"⟩ "n" 0 (by decide)
  refine ⟨h.1, ?_⟩
  rw [h.2]
  decide

/-- C8: `logout` is idempotent and total — called twice in a row, or on a
session id with no stored row, it always reports success and clears the
cookie, and after either call the row is absent. -/
theorem C8_logout_idempotent_total (store : Store) (cookie : Option String) :
    (logout store cookie).success = true ∧
    (logout store cookie).cookieCleared = true ∧
    (logout (logout store cookie).store cookie).success = true ∧
    (logout (logout store cookie).store cookie).cookieCleared = true ∧
    (∀ sid, cookie = some sid → ¬ sid = "" →
        storeGet (logout store cookie).store sid = none ∧
        storeGet (logout (logout store cookie).store cookie).store sid = none) := by
  refine ⟨rfl, rfl, rfl, rfl, ?_⟩
  intro sid hc hsid
  subst hc
  simp [logout, deleteSession, hsid, storeGet_storeDelete_self]

/-- Witness for C8 at a concrete input: logging out the one-row store
twice succeeds both times, and the row is gone after each call (also when
no row is stored, as in the second call). -/
theorem C8_logout_idempotent_total_witness :
    (logout demoStore (some "s")).success = true ∧
    (logout (logout demoStore (some "s")).store (some "s")).success = true ∧
    storeGet (logout demoStore (some "s")).store "s" = none ∧
    storeGet (logout (logout demoStore (some "s")).store (some "s")).store "s" = none := by
  have h := C8_logout_idempotent_total demoStore (some "s")
  exact ⟨h.1, h.2.2.1, (h.2.2.2.2 "s" rfl (by decide)).1,
    (h.2.2.2.2 "s" rfl (by decide)).2⟩

/-- C9: when a refresh response omits `refresh_token`, the updated
session retains its previous refresh credential — on the proactive path
in `requireAuth` and on the reactive path in `proxyRequest` — and the
refresh credential is replaced only when the response supplies a new
one. -/
theorem C9_refresh_credential_retention (store : Store) (sid : String)
    (s : SessionData) (now : Int) (nt : RefreshTokens) (hsid : ¬ sid = "")
    (hs : storeGet store sid = some s)
    (hg : s.expiresAt < now + TOKEN_REFRESH_BUFFER_MS)
    (ht : truthyStr s.refreshToken = true) :
    (nt.refresh_token = none →
      storeGet (requireAuth store (some sid) now (some nt)).store sid =
        some { accessToken := nt.access_token, refreshToken := s.refreshToken
               expiresAt := now + nt.expires_in * 1000
               user := s.user, customer := s.customer }) ∧
    (∀ r1 r2 : UpstreamResp, nt.refresh_token = none → r1.status = 401 →
      storeGet (proxyRequest store (some s) sid now r1 (some nt) r2).store sid =
        some { accessToken := nt.access_token, refreshToken := s.refreshToken
               expiresAt := now + nt.expires_in * 1000
               user := s.user, customer := s.customer }) ∧
    (∀ s' : SessionData,
      storeGet (requireAuth store (some sid) now (some nt)).store sid = some s' →
      s'.refreshToken ≠ s.refreshToken →
      ∃ r, nt.refresh_token = some r ∧ s'.refreshToken = some r) := by
  have hmain := requireAuth_refresh_success store sid s now nt hsid hs hg ht
  refine ⟨?_, ?_, ?_⟩
  · intro hnone
    rw [hmain]
    rw [storeGet_storeSet_self]
    simp [refreshedRow, orElseJs, hnone]
  · intro r1 r2 hnone h1
    rw [proxyRequest_refresh_success store s sid now r1 nt r2 h1 ht hs]
    rw [storeGet_storeSet_self]
    simp [refreshedRow, orElseJs, hnone]
  · intro s' hget hne
    rw [hmain, storeGet_storeSet_self] at hget
    have hs' : refreshedRow s nt now = s' := by injection hget
    cases hrt : nt.refresh_token with
    | none =>
        exfalso
        apply hne
        rw [← hs']
        simp [refreshedRow, orElseJs, hrt]
    | some r =>
        by_cases hr : r = ""
        · exfalso
          apply hne
          rw [← hs']
          simp [refreshedRow, orElseJs, hrt, hr]
        · refine ⟨r, rfl, ?_⟩
          rw [← hs']
          simp [refreshedRow, orElseJs, hrt, hr]

/-- Witness for C9 at a concrete input: refreshing the demo session with
a response that omits `refresh_token` keeps the old refresh credential
`"R1"`. -/
theorem C9_refresh_credential_retention_witness :
    storeGet (requireAuth demoStore (some "s") 0 (some demoNT)).store "s" =
      some { accessToken := "A2", refreshToken := some "R1"
             expiresAt := 3600000 } := by
  have h := (C9_refresh_credential_retention demoStore "s" demoSession 0 demoNT
      (by decide) (by decide) (by decide) (by decide)).1 (by decide)
  rw [h]
  decide

/-- C10: an expired session that still holds a refresh credential is not
rejected outright by `requireAuth`: a refresh exchange is attempted
(exactly one, whatever the upstream answers), and when it succeeds the
session is updated and the request proceeds as authenticated. -/
theorem C10_expired_session_resurrection (store : Store) (sid : String)
    (s : SessionData) (now : Int) (hsid : ¬ sid = "")
    (hs : storeGet store sid = some s) (hexp : s.expiresAt < now)
    (ht : truthyStr s.refreshToken = true) :
    (∀ rr, (requireAuth store (some sid) now rr).refreshCalls = 1) ∧
    (∀ nt : RefreshTokens,
      (requireAuth store (some sid) now (some nt)).result =
        .proceed (some (refreshedRow s nt now)) sid ∧
      storeGet (requireAuth store (some sid) now (some nt)).store sid =
        some (refreshedRow s nt now)) := by
  have hg : s.expiresAt < now + TOKEN_REFRESH_BUFFER_MS := by
    simp only [TOKEN_REFRESH_BUFFER_MS]
    omega
  refine ⟨?_, ?_⟩
  · intro rr
    cases rr with
    | none => rw [requireAuth_refresh_failure store sid s now hsid hs hg ht]
    | some nt => rw [requireAuth_refresh_success store sid s now nt hsid hs hg ht]
  · intro nt
    rw [requireAuth_refresh_success store sid s now nt hsid hs hg ht]
    exact ⟨rfl, storeGet_storeSet_self store sid _⟩

/-- Witness for C10 at a concrete input: the demo session, observed
150000 ms after its expiry, still triggers one refresh exchange and, on
success, proceeds authenticated with the refreshed row. -/
theorem C10_expired_session_resurrection_witness :
    (requireAuth demoStore (some "s") 250000 none).refreshCalls = 1 ∧
    (requireAuth demoStore (some "s") 250000 (some demoNT)).result =
      .proceed (some (refreshedRow demoSession demoNT 250000)) "s" := by
  have h := C10_expired_session_resurrection demoStore "s" demoSession 250000
    (by decide) (by decide) (by decide) (by decide)
  exact ⟨h.1 none, (h.2 demoNT).1⟩

end Portal
